import Mathlib

/-!
Verification of the `pat-discord-lnbits-bot` backend (files `database.py`,
`bot.py`, `server.py`) against its natural-language specification.

The development shallowly embeds the parts of the program that the claims
are about:

* the SQLite pending-invoice store of `database.py`, modelled as a list of
  records with the primary-key constraint made explicit;
* the payment-event filtering and the reconnect loop of
  `lnbits_websocket_listener` in `bot.py`;
* the invoice-creation response handling of `dynamic_command` and
  `get_lnbits_error_message` in `bot.py`;
* the confirmation handler `assign_role_after_payment` in `bot.py`, both as
  a sequential function and as a two-step transition system whose store
  accesses can interleave;
* the configuration-read endpoint `get_config` of `server.py`.

Timestamps are integers (seconds); machine strings and ids are `String` and
`Int`.  Python truthiness of optional strings (`None` and `""` are falsy) is
modelled by `truthyStr`.
-/

namespace DLB

/-! ## Record store (`database.py`) -/

/-- One row of the `pending_invoices` table (`database.py`, lines 24-31):
`payment_hash TEXT PRIMARY KEY, user_id INTEGER, channel_id INTEGER,
created_at TIMESTAMP DEFAULT CURRENT_TIMESTAMP`. `created_at` is seconds. -/
structure PendingInvoice where
  payment_hash : String
  user_id : Int
  channel_id : Int
  created_at : Int
deriving DecidableEq, Repr

/-- The table contents.  The primary-key constraint is enforced by
`add_pending_invoice`, the only inserting operation. -/
abbrev DB := List PendingInvoice

/-- `INVOICE_EXPIRY_HOURS = 1` (`database.py`, line 15). -/
def INVOICE_EXPIRY_HOURS : Int := 1

/-- `timedelta(hours=INVOICE_EXPIRY_HOURS)` in seconds. -/
def expirySeconds : Int := 3600 * INVOICE_EXPIRY_HOURS

/-- `get_pending_invoice` (`database.py`, lines 68-88): `SELECT ... WHERE
payment_hash = ?`; returns the row or `None`.  (The Python function returns
the row's `user_id`/`channel_id`/`created_at` fields as a dict; the model
returns the whole row.) -/
def get_pending_invoice (h : String) (db : DB) : Option PendingInvoice :=
  db.find? fun r => decide (r.payment_hash = h)

/-- `add_pending_invoice` (`database.py`, lines 47-65): `INSERT` that raises
`IntegrityError` (returning `False`, with the table unchanged) when a row
with the same `payment_hash` primary key already exists, and otherwise
appends the new row (returning `True`). -/
def add_pending_invoice (h : String) (u c : Int) (now : Int) (db : DB) : Bool × DB :=
  match get_pending_invoice h db with
  | some _ => (false, db)
  | none => (true, db ++ [{ payment_hash := h, user_id := u, channel_id := c, created_at := now }])

/-- `remove_pending_invoice` (`database.py`, lines 91-109): `DELETE ... WHERE
payment_hash = ?`; returns whether a row was removed (`cursor.rowcount > 0`)
together with the remaining table. -/
def remove_pending_invoice (h : String) (db : DB) : Bool × DB :=
  let remaining := db.filter fun r => !decide (r.payment_hash = h)
  (decide (remaining.length < db.length), remaining)

/-- `get_all_pending_invoices` (`database.py`, lines 112-131): `SELECT` of
every row. -/
def get_all_pending_invoices (db : DB) : List PendingInvoice := db

/-- `cleanup_expired_invoices` (`database.py`, lines 134-154):
`expiry_time = datetime.now() - timedelta(hours=INVOICE_EXPIRY_HOURS)` and
`DELETE ... WHERE created_at < expiry_time`; returns `cursor.rowcount` (the
number of rows deleted) and the remaining table. -/
def cleanup_expired_invoices (now : Int) (db : DB) : Nat × DB :=
  let expiry_time := now - expirySeconds
  let remaining := db.filter fun r => !decide (r.created_at < expiry_time)
  (db.length - remaining.length, remaining)

/-- `get_pending_invoice_count` (`database.py`, lines 157-162). -/
def get_pending_invoice_count (db : DB) : Nat := db.length

/-! ## Payment-event filtering (`bot.py`, `lnbits_websocket_listener`,
lines 151-169) -/

/-- Python truthiness of an optional string: `None` and `""` are falsy. -/
def truthyStr : Option String → Bool
  | none => false
  | some s => !decide (s = "")

/-- The fields of the `payment` object of a websocket message that the
listener reads (`bot.py`, lines 156-161).  A missing field is `none`. -/
structure PaymentEvent where
  checking_id : Option String
  payment_hash : Option String
  amount : Option Int
  status : Option String
  paid : Option Bool
  pending : Option Bool
deriving DecidableEq, Repr

/-- `h = p.get("checking_id") or p.get("payment_hash")` (`bot.py`,
line 158): Python `or` takes the first truthy operand. -/
def event_hash (p : PaymentEvent) : Option String :=
  match p.checking_id with
  | some s => if s = "" then p.payment_hash else some s
  | none => p.payment_hash

/-- `amt = p.get("amount", 0)` (`bot.py`, line 159). -/
def event_amount (p : PaymentEvent) : Int := p.amount.getD 0

/-- `is_paid = (status == "success") or (p.get("paid") is True) or
(p.get("pending") is False)` (`bot.py`, line 161). -/
def is_paid (p : PaymentEvent) : Bool :=
  decide (p.status = some "success") || decide (p.paid = some true)
    || decide (p.pending = some false)

/-- `if h and is_paid and amt > 0:` (`bot.py`, line 163): the condition
under which the listener dispatches `assign_role_after_payment` for the
event, rather than ignoring it. -/
def forwards_confirmation (p : PaymentEvent) : Bool :=
  truthyStr (event_hash p) && is_paid p && decide (0 < event_amount p)

/-! ## Listener reconnect loop (`bot.py`, lines 143-180)

One iteration of the outer `while True:` loop either fails to connect
(`websockets.connect` raises, caught by the outer `except`, which logs
"Retrying in 15s..." and sleeps 15 seconds) or connects, after which the
inner `while True:` receive loop handles messages until
`ConnectionClosed` is raised, whose handler `break`s out of the inner
loop; control then leaves the `async with` block normally and the outer
loop immediately begins its next iteration with no sleep.  Exceptions
raised while handling a message are caught by the inner generic
`except` and the receive loop continues. -/

/-- Outcome of one iteration of the listener's outer loop.  `connected n`
records that the connection succeeded and the inner receive loop handled
`n` messages before the connection closed abruptly. -/
inductive SessionOutcome where
  | connectFailed
  | connected (messagesHandled : Nat)
deriving DecidableEq, Repr

/-- What the loop does after an iteration: continue after a delay, or exit. -/
inductive LoopAction where
  | continueAfter (delaySeconds : Nat)
  | exitLoop
deriving DecidableEq, Repr

/-- The control flow of `lnbits_websocket_listener` after one iteration of
its outer loop: a failed connection attempt sleeps 15 seconds and retries
(`bot.py`, lines 178-180); an abruptly closed connection breaks out of the
inner receive loop and reconnects with no delay (`bot.py`, lines 172-174).
No branch leaves the outer loop. -/
def listener_iteration : SessionOutcome → LoopAction
  | .connectFailed => .continueAfter 15
  | .connected _ => .continueAfter 0

/-! ## Invoice creation (`bot.py`, `get_lnbits_error_message` lines 216-227
and `dynamic_command` lines 266-304) -/

/-- `get_lnbits_error_message` (`bot.py`, lines 216-227).  (The Python
function also takes a `response_text` argument that it never reads.) -/
def get_lnbits_error_message (status_code : Nat) : String :=
  if status_code ≥ 500 then
    s!"❌ LNBits server error ({status_code}) - Lightning node may be disconnected. Please contact admin."
  else if status_code = 401 then
    "❌ LNBits authentication failed - invalid API key."
  else if status_code = 403 then
    "❌ LNBits permission denied - API key may not have invoice permission."
  else if status_code = 404 then
    "❌ LNBits endpoint not found - check server configuration."
  else
    s!"❌ LNBits error ({status_code}). Please try again later."

/-- The failure classes distinguished by `get_lnbits_error_message`. -/
inductive ProviderErrorClass where
  | authFailure
  | permissionDenied
  | misconfiguredEndpoint
  | providerOutage
  | generic
deriving DecidableEq, Repr

/-- The classification realised by `get_lnbits_error_message`'s branch
structure (`bot.py`, lines 218-227), branch for branch. -/
def classify_lnbits_status (status_code : Nat) : ProviderErrorClass :=
  if status_code ≥ 500 then .providerOutage
  else if status_code = 401 then .authFailure
  else if status_code = 403 then .permissionDenied
  else if status_code = 404 then .misconfiguredEndpoint
  else .generic

/-- What `dynamic_command` does with the provider's response (`bot.py`,
lines 266-304), abstracting the message sends. -/
inductive CommandOutcome where
  | lnbitsError (msg : String)
  | invalidInvoiceData
  | invoicePresented (pr h : String)
deriving DecidableEq, Repr

/-- The response-handling tail of `dynamic_command` (`bot.py`, lines
266-304), from the provider's response onward: a non-201 status is answered
with `get_lnbits_error_message` and nothing is stored; a missing or empty
`bolt11` or `payment_hash` field is answered with "Invalid invoice data"
and nothing is stored; otherwise `add_pending_invoice` is called — its
result is not inspected — and the command proceeds to present the payment
request (QR code, embed and channel post). -/
def handle_invoice_response (status : Nat) (bolt11 payment_hash : Option String)
    (user_id channel_id now : Int) (db : DB) : CommandOutcome × DB :=
  if status ≠ 201 then
    (.lnbitsError (get_lnbits_error_message status), db)
  else
    match bolt11, payment_hash with
    | some pr, some h =>
      if pr = "" ∨ h = "" then (.invalidInvoiceData, db)
      else (.invoicePresented pr h, (add_pending_invoice h user_id channel_id now db).2)
    | some _, none => (.invalidInvoiceData, db)
    | none, _ => (.invalidInvoiceData, db)

/-! ## Confirmation handler (`bot.py`, `assign_role_after_payment`,
lines 90-141) -/

/-- The external-world outcomes the handler depends on: whether
`bot.get_guild` finds the guild, whether `guild.get_member` finds the member
in cache, whether the fallback `guild.fetch_member` succeeds, whether
`guild.get_role` finds the role, whether `bot.get_channel` finds the
announcement channel, whether the member already has the role, and whether
`member.add_roles` succeeds.  Channel sends are modelled as succeeding. -/
structure GrantEnv where
  guildFound : Bool
  memberInCache : Bool
  fetchSucceeds : Bool
  roleFound : Bool
  channelFound : Bool
  memberHasRole : Bool
  addRolesSucceeds : Bool
deriving DecidableEq, Repr

/-- The acknowledgment messages the handler can post (`bot.py`, lines
132-134 and 139-141). -/
inductive Ack where
  | congrats
  | alreadyHave
deriving DecidableEq, Repr

/-- What the handler did: whether `member.add_roles` was performed
successfully, and which acknowledgment (if any) was posted. -/
structure GrantOutcome where
  granted : Bool
  ack : Option Ack
deriving DecidableEq, Repr

/-- `assign_role_after_payment` (`bot.py`, lines 90-141) as a sequential
function: look the hash up (line 94) and return if absent (lines 95-97);
otherwise remove the record (line 100) and walk the guild/member/role/
channel checks, none of which touches the store again. -/
def assign_role_after_payment (h : String) (env : GrantEnv) (db : DB) :
    GrantOutcome × DB :=
  match get_pending_invoice h db with
  | none => ({ granted := false, ack := none }, db)
  | some _ =>
    let db1 := (remove_pending_invoice h db).2
    if env.guildFound then
      if env.memberInCache || env.fetchSucceeds then
        if env.roleFound then
          if env.memberHasRole then
            ({ granted := false,
               ack := if env.channelFound then some Ack.alreadyHave else none }, db1)
          else if env.addRolesSucceeds then
            ({ granted := true,
               ack := if env.channelFound then some Ack.congrats else none }, db1)
          else ({ granted := false, ack := none }, db1)
        else ({ granted := false, ack := none }, db1)
      else ({ granted := false, ack := none }, db1)
    else ({ granted := false, ack := none }, db1)

/-! ## Interleaved store accesses of two concurrent confirmation handlers

`lnbits_websocket_listener` dispatches each confirmation with
`bot.loop.create_task(assign_role_after_payment(h, p))` (`bot.py`, lines
165-167), so several handler tasks for the same hash can be in flight at
once.  Each task performs two store operations: the lookup
`get_pending_invoice(payment_hash_received)` (line 94) and, if a record was
found, the deletion `remove_pending_invoice(payment_hash_received)`
(line 100) whose boolean result the handler does not inspect; a task that
got past the deletion proceeds to grant (environment assumed benign).  The
two operations run in separate store transactions, so steps of different
tasks may interleave between them. -/

/-- Program counter of one handler task over its store accesses. -/
inductive TaskPC where
  | beforeGet
  | beforeRemove
  | done
deriving DecidableEq, Repr

/-- One in-flight confirmation-handler task: where it is, and whether it
reached the grant step. -/
structure HandlerTask where
  pc : TaskPC
  granted : Bool
deriving DecidableEq, Repr

/-- One atomic store access of a handler task for hash `h`: at `beforeGet`
it performs the lookup of `bot.py` line 94 and stops if the record is
absent (lines 95-97); at `beforeRemove` it performs the deletion of line
100 — without inspecting its result — and goes on to grant. -/
def handler_step (h : String) (t : HandlerTask) (db : DB) : HandlerTask × DB :=
  match t.pc with
  | .beforeGet =>
    match get_pending_invoice h db with
    | none => ({ t with pc := .done }, db)
    | some _ => ({ t with pc := .beforeRemove }, db)
  | .beforeRemove => ({ pc := .done, granted := true }, (remove_pending_invoice h db).2)
  | .done => (t, db)

/-- Run two handler tasks for the same hash under a schedule: `false` steps
the first task, `true` the second. -/
def handlers_run (h : String) : List Bool → HandlerTask × HandlerTask × DB →
    HandlerTask × HandlerTask × DB
  | [], st => st
  | false :: rest, (t1, t2, db) =>
    let s := handler_step h t1 db
    handlers_run h rest (s.1, t2, s.2)
  | true :: rest, (t1, t2, db) =>
    let s := handler_step h t2 db
    handlers_run h rest (t1, s.1, s.2)

/-! ## Configuration-read endpoint (`server.py`, `get_config`,
lines 127-137) -/

/-- A JSON value of the response: the stored configuration's string values,
or the boolean `configured` flag the endpoint adds. -/
inductive ConfigValue where
  | str (s : String)
  | bool (b : Bool)
deriving DecidableEq, Repr

/-- The stored `config.json` object as an association list (keys are unique
in a JSON object; first match wins in the model's lookups). -/
abbrev StoredConfig := List (String × String)

/-- `config.get(k)` on the stored configuration. -/
def config_get : StoredConfig → String → Option String
  | [], _ => none
  | kv :: rest, k => if kv.1 = k then some kv.2 else config_get rest k

/-- Lookup in the response object. -/
def lookup_value : List (String × ConfigValue) → String → Option ConfigValue
  | [], _ => none
  | kv :: rest, k => if kv.1 = k then some kv.2 else lookup_value rest k

/-- Python dict assignment `d[k] = v`: replace the value of an existing key
in place, or append the key. -/
def set_key : List (String × ConfigValue) → String → ConfigValue →
    List (String × ConfigValue)
  | [], k, v => [(k, v)]
  | kv :: rest, k, v =>
    if kv.1 = k then (k, v) :: rest else kv :: set_key rest k v

/-- The comprehension's condition `k not in ['discord_token',
'lnbits_api_key']` (`server.py`, line 134). -/
def keep_in_safe (k : String) : Bool :=
  decide (k ≠ "discord_token" ∧ k ≠ "lnbits_api_key")

/-- `get_config` (`server.py`, lines 127-137), for an existing config file:
`safe_config = {k: v for k, v in config.items() if k not in
['discord_token', 'lnbits_api_key']}` followed by
`safe_config['configured'] = bool(config.get('discord_token')) and
bool(config.get('lnbits_api_key'))`. -/
def get_config_response (config : StoredConfig) : List (String × ConfigValue) :=
  let safe := (config.filter fun kv => keep_in_safe kv.1).map
      fun kv => (kv.1, ConfigValue.str kv.2)
  let configured := truthyStr (config_get config "discord_token") &&
      truthyStr (config_get config "lnbits_api_key")
  set_key safe "configured" (ConfigValue.bool configured)

/-! ## Helper lemmas -/

/-- Truthiness of an optional string, spelt out. -/
theorem truthyStr_eq_true_iff (o : Option String) :
    truthyStr o = true ↔ ∃ s, o = some s ∧ s ≠ "" := by
  cases o with
  | none => simp [truthyStr]
  | some s => simp [truthyStr]

/-- `filter` splits the length of a list. -/
theorem length_filter_split (p : PendingInvoice → Bool) (db : DB) :
    (db.filter p).length + (db.filter fun r => !p r).length = db.length := by
  induction db with
  | nil => rfl
  | cons r rest ih => cases hp : p r <;> simp [List.filter_cons, hp] <;> omega

/-- A lookup that misses the front of an appended list falls to the back. -/
theorem find_eq_of_front_none {p : PendingInvoice → Bool} {l1 : List PendingInvoice}
    (l2 : List PendingInvoice) (h : l1.find? p = none) :
    (l1 ++ l2).find? p = l2.find? p := by
  rw [List.find?_append, h, Option.none_or]

/-- After `remove_pending_invoice h`, no record with hash `h` is found. -/
theorem get_pending_invoice_after_remove (h : String) (db : DB) :
    get_pending_invoice h (remove_pending_invoice h db).2 = none := by
  rw [get_pending_invoice, List.find?_eq_none]
  intro r hr
  rw [remove_pending_invoice] at hr
  simp only [List.mem_filter, Bool.not_eq_eq_eq_not, Bool.not_true,
    decide_eq_false_iff_not] at hr
  simp [hr.2]

/-! ## Claims -/

/-- Claim C3: for every received event, a confirmation signal is dispatched
if and only if the derived matching id is present (non-empty), at least one
of `status = "success"`, `paid = true`, `pending = false` holds, and the
amount is strictly positive; so an event with amount zero or negative, or
with no matching id, is never dispatched regardless of confirmation flags. -/
theorem claim_C3_confirmation_filter (p : PaymentEvent) :
    forwards_confirmation p = true ↔
      ((∃ s, event_hash p = some s ∧ s ≠ "") ∧
       (p.status = some "success" ∨ p.paid = some true ∨ p.pending = some false) ∧
       0 < event_amount p) := by
  simp [forwards_confirmation, is_paid, truthyStr_eq_true_iff, Bool.and_eq_true,
    Bool.or_eq_true, decide_eq_true_eq, and_assoc, or_assoc]

/-- Witness for C3 at a concrete confirmed event. -/
theorem claim_C3_witness :
    forwards_confirmation
      { checking_id := some "abc", payment_hash := none, amount := some 10,
        status := some "success", paid := none, pending := none } = true :=
  (claim_C3_confirmation_filter _).mpr
    ⟨⟨"abc", by decide, by decide⟩, Or.inl rfl, by decide⟩

/-- Claim C4: inserting the same `payment_hash` twice yields one success and
one duplicate; the second insert leaves the stored record and the store's
size unchanged. -/
theorem claim_C4_duplicate_insert (h : String) (u c u2 c2 t t2 : Int) (db : DB)
    (hfresh : get_pending_invoice h db = none) :
    (add_pending_invoice h u c t db).1 = true ∧
    add_pending_invoice h u2 c2 t2 (add_pending_invoice h u c t db).2 =
      (false, (add_pending_invoice h u c t db).2) ∧
    get_pending_invoice_count
        (add_pending_invoice h u2 c2 t2 (add_pending_invoice h u c t db).2).2 =
      get_pending_invoice_count (add_pending_invoice h u c t db).2 := by
  have h1 : add_pending_invoice h u c t db =
      (true, db ++ [{ payment_hash := h, user_id := u, channel_id := c, created_at := t }]) := by
    rw [add_pending_invoice, hfresh]
  have h2 : get_pending_invoice h
      (db ++ [{ payment_hash := h, user_id := u, channel_id := c, created_at := t }]) =
      some { payment_hash := h, user_id := u, channel_id := c, created_at := t } := by
    rw [get_pending_invoice, find_eq_of_front_none _ hfresh]
    simp
  refine ⟨by rw [h1], ?_, ?_⟩ <;> rw [h1] <;> simp [add_pending_invoice, h2]

/-- Witness for C4 at a concrete fresh insert. -/
theorem claim_C4_witness :
    (add_pending_invoice "w4" 1 2 3 []).1 = true ∧
    add_pending_invoice "w4" 4 5 6 (add_pending_invoice "w4" 1 2 3 []).2 =
      (false, (add_pending_invoice "w4" 1 2 3 []).2) ∧
    get_pending_invoice_count
        (add_pending_invoice "w4" 4 5 6 (add_pending_invoice "w4" 1 2 3 []).2).2 =
      get_pending_invoice_count (add_pending_invoice "w4" 1 2 3 []).2 :=
  claim_C4_duplicate_insert "w4" 1 2 4 5 3 6 [] (by decide)

/-- Claim C5: the expiry sweep with the 1-hour threshold keeps exactly the
records whose age is at most the threshold (so a record created at `T` is
still present when the sweep runs at or before `T` plus the threshold, and
absent when it runs strictly after), and it reports as removed exactly the
records whose age strictly exceeds the threshold. -/
theorem claim_C5_expiry (now : Int) (db : DB) :
    (∀ r, r ∈ (cleanup_expired_invoices now db).2 ↔
       (r ∈ db ∧ now - r.created_at ≤ expirySeconds)) ∧
    (∀ r, r ∈ db → now ≤ r.created_at + expirySeconds →
       r ∈ (cleanup_expired_invoices now db).2) ∧
    (cleanup_expired_invoices now db).1 =
      (db.filter fun r => decide (expirySeconds < now - r.created_at)).length := by
  have hmem : ∀ r, r ∈ (cleanup_expired_invoices now db).2 ↔
      (r ∈ db ∧ now - r.created_at ≤ expirySeconds) := by
    intro r
    simp only [cleanup_expired_invoices, List.mem_filter, Bool.not_eq_eq_eq_not,
      Bool.not_true, decide_eq_false_iff_not]
    constructor
    · rintro ⟨hr, hlt⟩
      exact ⟨hr, by omega⟩
    · rintro ⟨hr, hle⟩
      exact ⟨hr, by omega⟩
  refine ⟨hmem, fun r hr hle => (hmem r).mpr ⟨hr, by omega⟩, ?_⟩
  have hsplit := length_filter_split (fun r => decide (r.created_at < now - expirySeconds)) db
  have hcong : (db.filter fun r => decide (expirySeconds < now - r.created_at)) =
      db.filter fun r => decide (r.created_at < now - expirySeconds) :=
    List.filter_congr fun x _ => decide_eq_decide.mpr (by omega)
  have hlen : (db.filter fun r => !decide (r.created_at < now - expirySeconds)).length ≤
      db.length := List.length_filter_le _ _
  simp only [cleanup_expired_invoices, hcong]
  omega

/-- Witness for C5: a record aged exactly the threshold survives the sweep. -/
theorem claim_C5_witness :
    ({ payment_hash := "a", user_id := 1, channel_id := 2, created_at := 0 } : PendingInvoice) ∈
      (cleanup_expired_invoices 3600
        [{ payment_hash := "a", user_id := 1, channel_id := 2, created_at := 0 }]).2 :=
  (claim_C5_expiry 3600 _).2.1 _ (List.mem_singleton.mpr rfl) (by decide)

/-- Claim C6: every non-201 provider response is answered with the error
message classified by status code — 401 authentication, 403 permission,
404 misconfiguration, 500 and above provider/node outage, anything else
generic — and no pending record is stored (the store is returned
unchanged). -/
theorem claim_C6_error_classification (status : Nat) (bolt11 payment_hash : Option String)
    (u c now : Int) (db : DB) (hne : status ≠ 201) :
    handle_invoice_response status bolt11 payment_hash u c now db =
      (.lnbitsError (get_lnbits_error_message status), db) ∧
    (status = 401 → classify_lnbits_status status = .authFailure) ∧
    (status = 403 → classify_lnbits_status status = .permissionDenied) ∧
    (status = 404 → classify_lnbits_status status = .misconfiguredEndpoint) ∧
    (500 ≤ status → classify_lnbits_status status = .providerOutage) ∧
    (status ≠ 401 ∧ status ≠ 403 ∧ status ≠ 404 ∧ status < 500 →
      classify_lnbits_status status = .generic) := by
  refine ⟨by simp [handle_invoice_response, hne], ?_, ?_, ?_, ?_, ?_⟩
  · rintro rfl; decide
  · rintro rfl; decide
  · rintro rfl; decide
  · intro hge
    rw [classify_lnbits_status, if_pos hge]
  · rintro ⟨h1, h3, h4, h5⟩
    rw [classify_lnbits_status, if_neg (by omega), if_neg h1, if_neg h3, if_neg h4]

/-- Witness for C6 at a concrete 404 response with an empty store. -/
theorem claim_C6_witness :
    handle_invoice_response 404 (some "x") (some "y") 1 2 3 [] =
      (.lnbitsError (get_lnbits_error_message 404), []) ∧
    classify_lnbits_status 404 = .misconfiguredEndpoint :=
  ⟨(claim_C6_error_classification 404 (some "x") (some "y") 1 2 3 [] (by decide)).1,
   (claim_C6_error_classification 404 (some "x") (some "y") 1 2 3 [] (by decide)).2.2.2.1 rfl⟩

/-- Counterexample to C7 as stated: after an abrupt closure of an
established connection (here a session that handled 3 messages before
`ConnectionClosed` broke the receive loop), the listener reconnects
immediately — the delay before the next connection attempt is 0 seconds,
not the claimed fixed 15-second backoff. -/
theorem claim_C7_counterexample :
    listener_iteration (SessionOutcome.connected 3) = LoopAction.continueAfter 0 ∧
    listener_iteration (SessionOutcome.connected 3) ≠ LoopAction.continueAfter 15 := by
  decide

/-- Claim C7 (amended): the listener never exits its outer loop; after a
failed connection attempt it waits the fixed 15-second backoff before
retrying, while after an abrupt closure of an established connection it
reconnects immediately, with no backoff. -/
theorem claim_C7_retry_policy (s : SessionOutcome) :
    listener_iteration s ≠ LoopAction.exitLoop ∧
    listener_iteration SessionOutcome.connectFailed = LoopAction.continueAfter 15 ∧
    (∀ n, listener_iteration (SessionOutcome.connected n) = LoopAction.continueAfter 0) := by
  refine ⟨?_, rfl, fun n => rfl⟩
  cases s <;> simp [listener_iteration]

/-- Witness for C7 (amended) at a concrete session outcome. -/
theorem claim_C7_witness :
    listener_iteration SessionOutcome.connectFailed ≠ LoopAction.exitLoop :=
  (claim_C7_retry_policy SessionOutcome.connectFailed).1

/-- Claim C8: when no record matches the signal's hash the handler returns
without granting and without modifying the store; when a record matches,
the store afterwards is exactly the store with that record removed — no
failure in the granting steps re-inserts it, and the hash is no longer
present. -/
theorem claim_C8_consume_frame (h : String) (env : GrantEnv) (db : DB) :
    (get_pending_invoice h db = none →
       assign_role_after_payment h env db = ({ granted := false, ack := none }, db)) ∧
    (get_pending_invoice h db ≠ none →
       (assign_role_after_payment h env db).2 = (remove_pending_invoice h db).2 ∧
       get_pending_invoice h (assign_role_after_payment h env db).2 = none) := by
  cases hrec : get_pending_invoice h db with
  | none =>
    refine ⟨fun _ => ?_, fun hne => absurd rfl hne⟩
    simp only [assign_role_after_payment, hrec]
  | some r =>
    refine ⟨fun hnone => Option.noConfusion hnone, fun _ => ?_⟩
    obtain ⟨g, mc, fs, rf, cf, mh, ar⟩ := env
    have hsnd : (assign_role_after_payment h ⟨g, mc, fs, rf, cf, mh, ar⟩ db).2 =
        (remove_pending_invoice h db).2 := by
      simp only [assign_role_after_payment, hrec]
      cases g <;> cases mc <;> cases fs <;> cases rf <;> cases cf <;> cases mh <;>
        cases ar <;> rfl
    exact ⟨hsnd, by rw [hsnd]; exact get_pending_invoice_after_remove h db⟩

/-- Witness for C8 at a concrete absent hash. -/
theorem claim_C8_witness :
    assign_role_after_payment "z"
      { guildFound := true, memberInCache := true, fetchSucceeds := true,
        roleFound := true, channelFound := true, memberHasRole := false,
        addRolesSucceeds := true } [] =
      ({ granted := false, ack := none }, []) :=
  (claim_C8_consume_frame "z" _ []).1 (by decide)

/-- Claim C9: with the record present and the guild, member, role and
channel all resolvable, a member who already holds the role gets the
"already confirmed" acknowledgment and no role assignment, while a member
who does not hold it (and whose assignment succeeds) gets the role and the
public congratulation in the configured channel. -/
theorem claim_C9_idempotent_grant (h : String) (env : GrantEnv) (db : DB)
    (hrec : get_pending_invoice h db ≠ none)
    (hg : env.guildFound = true)
    (hm : env.memberInCache = true ∨ env.fetchSucceeds = true)
    (hrole : env.roleFound = true)
    (hch : env.channelFound = true) :
    (env.memberHasRole = true →
       (assign_role_after_payment h env db).1 =
         { granted := false, ack := some Ack.alreadyHave }) ∧
    (env.memberHasRole = false → env.addRolesSucceeds = true →
       (assign_role_after_payment h env db).1 =
         { granted := true, ack := some Ack.congrats }) := by
  cases hr : get_pending_invoice h db with
  | none => exact absurd hr hrec
  | some r =>
    obtain ⟨g, mc, fs, rf, cf, mh, ar⟩ := env
    dsimp only at hg hm hrole hch ⊢
    subst hg hrole hch
    refine ⟨fun hmh => ?_, fun hmh har => ?_⟩ <;> subst hmh <;>
      rcases hm with hmc | hfs
    · subst hmc; simp [assign_role_after_payment, hr]
    · subst hfs; cases mc <;> simp [assign_role_after_payment, hr]
    · subst har; subst hmc; simp [assign_role_after_payment, hr]
    · subst har; subst hfs; cases mc <;> simp [assign_role_after_payment, hr]

/-- Witness for C9: a member who already holds the role, at a concrete
store and environment. -/
theorem claim_C9_witness :
    (assign_role_after_payment "x"
      { guildFound := true, memberInCache := true, fetchSucceeds := true,
        roleFound := true, channelFound := true, memberHasRole := true,
        addRolesSucceeds := true }
      [{ payment_hash := "x", user_id := 1, channel_id := 2, created_at := 0 }]).1 =
      { granted := false, ack := some Ack.alreadyHave } :=
  (claim_C9_idempotent_grant "x" _ _ (by decide) rfl (Or.inl rfl) rfl rfl).1 rfl

/-- Claim C1 is violated by the code: the handler's lookup and delete are
two separate store transactions and the delete's boolean result is never
inspected, so under the interleaving get₁, get₂, remove₁, remove₂ of two
concurrent confirmation signals for the same stored `payment_hash`, both
handler tasks obtain the record and both proceed to grant. -/
theorem claim_C1_double_grant :
    (handlers_run "h1" [false, true, false, true]
      ({ pc := .beforeGet, granted := false }, { pc := .beforeGet, granted := false },
        [{ payment_hash := "h1", user_id := 5, channel_id := 6, created_at := 0 }])).1.granted
        = true ∧
    (handlers_run "h1" [false, true, false, true]
      ({ pc := .beforeGet, granted := false }, { pc := .beforeGet, granted := false },
        [{ payment_hash := "h1", user_id := 5, channel_id := 6, created_at := 0 }])).2.1.granted
        = true := by
  decide

/-- Counterexample to C2 as stated: with the new `payment_hash` already
present in the store the insert reports duplicate, yet the command's
outcome is still a presented payment request — no error is surfaced to the
caller. -/
theorem claim_C2_counterexample :
    (add_pending_invoice "ph" 3 4 5
      [{ payment_hash := "ph", user_id := 1, channel_id := 2, created_at := 0 }]).1 = false ∧
    handle_invoice_response 201 (some "lnbc1") (some "ph") 3 4 5
      [{ payment_hash := "ph", user_id := 1, channel_id := 2, created_at := 0 }] =
      (CommandOutcome.invoicePresented "lnbc1" "ph",
        [{ payment_hash := "ph", user_id := 1, channel_id := 2, created_at := 0 }]) := by
  decide

/-- Claim C2 (amended): after a successful (201) provider response with
non-empty `bolt11` and `payment_hash`, the insert's result is not
inspected: even when it reports duplicate, the command proceeds to present
the payment request and the store is left unchanged; no error is surfaced. -/
theorem claim_C2_duplicate_ignored (pr h : String) (u c now : Int) (db : DB)
    (hpr : pr ≠ "") (hh : h ≠ "")
    (hdup : (add_pending_invoice h u c now db).1 = false) :
    handle_invoice_response 201 (some pr) (some h) u c now db =
      (CommandOutcome.invoicePresented pr h, db) := by
  have hsnd : (add_pending_invoice h u c now db).2 = db := by
    rw [add_pending_invoice] at hdup ⊢
    cases hg : get_pending_invoice h db with
    | none => rw [hg] at hdup; simp at hdup
    | some r => rfl
  simp [handle_invoice_response, hpr, hh, hsnd]

/-- Witness for C2 (amended) at a concrete duplicate insert. -/
theorem claim_C2_witness :
    handle_invoice_response 201 (some "lnbc1") (some "ph2") 3 4 5
      [{ payment_hash := "ph2", user_id := 1, channel_id := 2, created_at := 0 }] =
      (CommandOutcome.invoicePresented "lnbc1" "ph2",
        [{ payment_hash := "ph2", user_id := 1, channel_id := 2, created_at := 0 }]) :=
  claim_C2_duplicate_ignored "lnbc1" "ph2" 3 4 5 _ (by decide) (by decide) (by decide)

/-- Dict assignment stores the assigned key's value. -/
theorem lookup_set_key_self (l : List (String × ConfigValue)) (k : String) (v : ConfigValue) :
    lookup_value (set_key l k v) k = some v := by
  induction l with
  | nil => simp [set_key, lookup_value]
  | cons kv rest ih =>
    by_cases hk : kv.1 = k
    · simp [set_key, hk, lookup_value]
    · simp [set_key, hk, lookup_value, ih]

/-- Dict assignment leaves every other key's value alone. -/
theorem lookup_set_key_other (l : List (String × ConfigValue)) (k k2 : String)
    (v : ConfigValue) (hne : k2 ≠ k) :
    lookup_value (set_key l k v) k2 = lookup_value l k2 := by
  induction l with
  | nil => simp [set_key, lookup_value, Ne.symm hne]
  | cons kv rest ih =>
    rcases kv with ⟨k1, v1⟩
    by_cases hk : k1 = k
    · subst hk
      simp [set_key, lookup_value, Ne.symm hne]
    · simp [set_key, hk, lookup_value, ih]

/-- Lookup in the filtered-and-stringified copy of the stored configuration
that `get_config` builds: a key the comprehension excludes is absent, every
other key keeps its stored value. -/
theorem lookup_safe_copy (l : StoredConfig) (k : String) :
    lookup_value ((l.filter fun kv => keep_in_safe kv.1).map
        fun kv => (kv.1, ConfigValue.str kv.2)) k =
      (if keep_in_safe k then (config_get l k).map ConfigValue.str else none) := by
  induction l with
  | nil => cases hq : keep_in_safe k <;> simp [config_get, lookup_value, hq]
  | cons kv rest ih =>
    rcases kv with ⟨k1, v1⟩
    rw [List.filter_cons]
    by_cases hk : k1 = k
    · subst hk
      cases hq : keep_in_safe k1 <;> simp [hq, lookup_value, config_get, ih]
    · cases hq : keep_in_safe k1 <;> simp [hq, lookup_value, config_get, hk, ih]

/-- Claim C10: the configuration-read response contains neither the
`discord_token` nor the `lnbits_api_key` entry; every other stored key
(apart from the added `configured` flag) is returned with its stored
value; and the `configured` flag is true exactly when both secrets are
present and non-empty in the stored file. -/
theorem claim_C10_secret_redaction (config : StoredConfig) :
    lookup_value (get_config_response config) "discord_token" = none ∧
    lookup_value (get_config_response config) "lnbits_api_key" = none ∧
    (∀ k, k ≠ "discord_token" → k ≠ "lnbits_api_key" → k ≠ "configured" →
       lookup_value (get_config_response config) k =
         (config_get config k).map ConfigValue.str) ∧
    lookup_value (get_config_response config) "configured" =
      some (ConfigValue.bool (truthyStr (config_get config "discord_token") &&
        truthyStr (config_get config "lnbits_api_key"))) ∧
    ((truthyStr (config_get config "discord_token") &&
        truthyStr (config_get config "lnbits_api_key")) = true ↔
      ((∃ s, config_get config "discord_token" = some s ∧ s ≠ "") ∧
       (∃ s, config_get config "lnbits_api_key" = some s ∧ s ≠ ""))) := by
  refine ⟨?_, ?_, fun k h1 h2 h3 => ?_, ?_, ?_⟩
  · rw [get_config_response, lookup_set_key_other _ _ _ _ (by decide), lookup_safe_copy]
    simp [keep_in_safe]
  · rw [get_config_response, lookup_set_key_other _ _ _ _ (by decide), lookup_safe_copy]
    simp [keep_in_safe]
  · rw [get_config_response, lookup_set_key_other _ _ _ _ h3, lookup_safe_copy]
    simp [keep_in_safe, h1, h2]
  · rw [get_config_response, lookup_set_key_self]
  · simp [truthyStr_eq_true_iff, Bool.and_eq_true]

/-- Witness for C10 at a concrete stored configuration holding both
secrets. -/
theorem claim_C10_witness :
    lookup_value (get_config_response
      [("discord_token", "tok"), ("lnbits_api_key", "key"), ("price", "21")])
      "discord_token" = none :=
  (claim_C10_secret_redaction
    [("discord_token", "tok"), ("lnbits_api_key", "key"), ("price", "21")]).1

end DLB
